import Mathlib

/-!
Verification of the EdgeX MessageBus client wrapper (package `messagebus`,
repository `clint456/edgex-messagebus-client`).

The Go source is shallowly embedded: the mutable `Client` struct becomes an
explicit `ClientState` record, every method becomes a pure function from the
old state (plus a `Transport` oracle standing for the external
`messaging.MessageClient`) to its result, the new state and the list of calls
it made on the transport, and the per-topic dispatch goroutine
(`handleMessages`) becomes a recursive function over the finite list of
messages its channel delivered.  Machine-level concerns (the mutex, channel
buffering) that no claim depends on are not modelled; the order of statements
inside each method is preserved exactly.
-/

namespace MessageBus

/-- Error taxonomy of the client (spec section 7).  In the Go source the
`notConnected` case is the error string `"MessageBus未连接"`, `serialization`
wraps a `json.Marshal` failure, and `transport` wraps an error returned by the
underlying `messaging.MessageClient`. -/
inductive Err where
  | notConnected
  | serialization (msg : String)
  | transport (msg : String)
  deriving Repr, DecidableEq

/-- Model of the Go values that can be handed to `Publish` /
`CreateMessageEnvelope` in the `default` branch of their type switch, i.e.
anything that is neither `[]byte` nor `string` and is passed to
`json.Marshal`.  The `unsupported` constructor stands for the Go values
`json.Marshal` rejects (channels, functions, ...), carrying the type name that
appears in the Go error `json: unsupported type: ...`. -/
inductive JsonVal where
  | null
  | bool (b : Bool)
  | num (n : Int)
  | str (s : String)
  | arr (xs : List JsonVal)
  | obj (fields : List (String × JsonVal))
  | unsupported (tag : String)
  deriving Repr

/-- UTF-8 bytes of a string, as natural numbers: the Go conversion
`[]byte(s)`. -/
def utf8Bytes (s : String) : List Nat :=
  s.toUTF8.toList.map (fun b => b.toNat)

/-- JSON string quoting (the escaping `json.Marshal` applies to `"` and
`\`). -/
def jsonQuote (s : String) : String :=
  "\"" ++ String.join (s.data.map (fun c =>
    if c = '"' then "\\\"" else if c = '\\' then "\\\\" else String.singleton c)) ++ "\""

mutual

/-- Rendering of a `JsonVal` to JSON text; fails exactly on values
`json.Marshal` cannot encode. -/
def jsonRender : JsonVal → Except String String
  | .null => .ok "null"
  | .bool b => .ok (if b then "true" else "false")
  | .num n => .ok (toString n)
  | .str s => .ok (jsonQuote s)
  | .arr xs => (jsonRenderList xs).map (fun parts =>
      "[" ++ String.intercalate "," parts ++ "]")
  | .obj fs => (jsonRenderFields fs).map (fun parts =>
      "\x7b" ++ String.intercalate "," parts ++ "\x7d")
  | .unsupported tag => .error ("json: unsupported type: " ++ tag)

def jsonRenderList : List JsonVal → Except String (List String)
  | [] => .ok []
  | v :: vs => do
    let r ← jsonRender v
    let rs ← jsonRenderList vs
    .ok (r :: rs)

def jsonRenderFields : List (String × JsonVal) → Except String (List String)
  | [] => .ok []
  | (k, v) :: fs => do
    let r ← jsonRender v
    let rs ← jsonRenderFields fs
    .ok ((jsonQuote k ++ ":" ++ r) :: rs)

end

/-- `json.Marshal` on the modelled values: payload bytes or an error. -/
def jsonMarshal (v : JsonVal) : Except String (List Nat) :=
  (jsonRender v).map utf8Bytes

/-- The possible arguments of `Publish` / `CreateMessageEnvelope`, mirroring
the Go `interface{}` type switch: `[]byte`, `string`, or anything else
(which goes to `json.Marshal`). -/
inductive GoValue where
  | bytes (b : List Nat)
  | str (s : String)
  | other (v : JsonVal)
  deriving Repr

/-- The shared payload-conversion switch of `Publish`,
`PublishWithCorrelationID` and `CreateMessageEnvelope` (client.go):
`case []byte: payload = v`; `case string: payload = []byte(v)`;
`default: payload, err = json.Marshal(data)`. -/
def toPayloadBytes : GoValue → Except Err (List Nat)
  | .bytes b => .ok b
  | .str s => .ok (utf8Bytes s)
  | .other v =>
    match jsonMarshal v with
    | .ok bs => .ok bs
    | .error e => .error (.serialization e)

/-- `types.MessageEnvelope`: the fields the client reads or writes. -/
structure MessageEnvelope where
  correlationID : String
  payload : List Nat
  contentType : String
  receivedTopic : String := ""
  deriving Repr, DecidableEq

/-- `CreateMessageEnvelope` (client.go lines 388-413).  The fresh UUID that
`uuid.New().String()` would produce is passed in explicitly (`freshUuid`),
since the generator is an external library: the method uses it only when the
caller-supplied correlation id is empty. -/
def CreateMessageEnvelope (data : GoValue) (correlationID : String)
    (freshUuid : String) : Except Err MessageEnvelope :=
  match toPayloadBytes data with
  | .error e => .error e
  | .ok payload =>
    let cid := if correlationID = "" then "MessageBus-" ++ freshUuid else correlationID
    .ok { correlationID := cid, payload := payload,
          contentType := "application/json" }

/-- Oracle for the external `messaging.MessageClient` (the Transport
Provider): for each operation, what the provider would answer.  `none` means
success; `some e` carries the provider's error text. -/
structure Transport where
  subscribeError : List String → Option String
  publishError : MessageEnvelope → String → Option String
  unsubscribeError : List String → Option String
  requestResult : Except String MessageEnvelope
  disconnectError : Option String

/-- One call made on the Transport Provider, recorded so the theorems can
speak about whether and how the transport was touched. -/
inductive TCall where
  | publish (env : MessageEnvelope) (topic : String)
  | subscribe (topics : List String)
  | unsubscribe (topics : List String)
  | request (topic : String)
  | disconnect
  deriving Repr, DecidableEq

/-- The mutable fields of the Go `Client` struct.  The `subscriptions` map
`map[string]chan types.MessageEnvelope` becomes an association list from topic
pattern to a channel identifier (`nextChan` supplies fresh identifiers, one
per `make(chan ...)`); `stopClosed` records whether `close(stopChan)` has
happened; `tasks` is the `sync.WaitGroup` counter of outstanding
`handleMessages` goroutines. -/
structure ClientState where
  isConnected : Bool
  subscriptions : List (String × Nat)
  stopClosed : Bool
  tasks : Nat
  nextChan : Nat
  deriving Repr, DecidableEq

/-- Lookup in the subscriptions map. -/
def getSub : List (String × Nat) → String → Option Nat
  | [], _ => none
  | p :: rest, t => if p.1 = t then some p.2 else getSub rest t

/-- Go map assignment `c.subscriptions[topic] = ch`: bind `t` to `ch`,
dropping any previous binding (a Go map holds one value per key; iteration
order is unspecified, so the representation order carries no meaning). -/
def setSub (subs : List (String × Nat)) (t : String) (ch : Nat) :
    List (String × Nat) :=
  (t, ch) :: subs.filter (fun p => p.1 != t)

/-- `IsConnected` (client.go lines 164-169). -/
def IsConnected (s : ClientState) : Bool := s.isConnected

/-- `GetSubscribedTopics` (client.go lines 370-380): the keys of the
subscriptions map. -/
def GetSubscribedTopics (s : ClientState) : List String :=
  s.subscriptions.map (fun p => p.1)

/-- The channel-creation loop at the top of `Subscribe` (client.go lines
267-275): for each topic, make a fresh buffered channel and store it in
`c.subscriptions` before the transport is called. -/
def registerChannels (s : ClientState) (topics : List String) : ClientState :=
  topics.foldl (fun st t =>
    { st with subscriptions := setSub st.subscriptions t st.nextChan,
              nextChan := st.nextChan + 1 }) s

/-- `Subscribe` (client.go lines 260-290): guard on `IsConnected`, create and
record one channel per topic, register the batch with the transport, and only
on success start one dispatch goroutine per topic (`wg.Add(1)` each). -/
def Subscribe (tr : Transport) (s : ClientState) (topics : List String) :
    Except Err Unit × ClientState × List TCall :=
  if IsConnected s then
    let s1 := registerChannels s topics
    match tr.subscribeError topics with
    | some e => (.error (.transport e), s1, [.subscribe topics])
    | none => (.ok (), { s1 with tasks := s1.tasks + topics.length },
               [.subscribe topics])
  else (.error .notConnected, s, [])

/-- `Publish` (client.go lines 171-207): guard, payload switch, envelope with
a generated correlation id (`freshUuid` stands for `uuid.New().String()`),
then one transport publish. -/
def Publish (tr : Transport) (s : ClientState) (topic : String)
    (data : GoValue) (freshUuid : String) : Except Err Unit × List TCall :=
  if IsConnected s then
    match toPayloadBytes data with
    | .error e => (.error e, [])
    | .ok payload =>
      let env : MessageEnvelope :=
        { correlationID := "MessageBus-" ++ freshUuid, payload := payload,
          contentType := "application/json" }
      match tr.publishError env topic with
      | some e => (.error (.transport e), [.publish env topic])
      | none => (.ok (), [.publish env topic])
  else (.error .notConnected, [])

/-- `PublishWithCorrelationID` (client.go lines 209-243): same as `Publish`
but the envelope's correlation id is the caller's argument, used as given. -/
def PublishWithCorrelationID (tr : Transport) (s : ClientState)
    (topic : String) (data : GoValue) (correlationID : String) :
    Except Err Unit × List TCall :=
  if IsConnected s then
    match toPayloadBytes data with
    | .error e => (.error e, [])
    | .ok payload =>
      let env : MessageEnvelope :=
        { correlationID := correlationID, payload := payload,
          contentType := "application/json" }
      match tr.publishError env topic with
      | some e => (.error (.transport e), [.publish env topic])
      | none => (.ok (), [.publish env topic])
  else (.error .notConnected, [])

/-- `Unsubscribe` (client.go lines 332-352): guard, transport unsubscribe,
and on success close and delete each topic's channel. -/
def Unsubscribe (tr : Transport) (s : ClientState) (topics : List String) :
    Except Err Unit × ClientState × List TCall :=
  if IsConnected s then
    match tr.unsubscribeError topics with
    | some e => (.error (.transport e), s, [.unsubscribe topics])
    | none =>
      (.ok (),
       { s with subscriptions :=
           s.subscriptions.filter (fun p => !(topics.contains p.1)) },
       [.unsubscribe topics])
  else (.error .notConnected, s, [])

/-- `Request` (client.go lines 354-368): guard, then delegate to the
transport's request/response call. -/
def Request (tr : Transport) (s : ClientState) (env : MessageEnvelope)
    (requestTopic respTopic : String) :
    Except Err MessageEnvelope × List TCall :=
  if IsConnected s then
    match tr.requestResult with
    | .error e => (.error (.transport e), [.request requestTopic])
    | .ok resp => (.ok resp, [.request requestTopic])
  else (.error .notConnected, [])

/-- The observable steps of `Disconnect`, in the order the method body
performs them. -/
inductive DEvent where
  | closeStopChan
  | waitTasks
  | transportDisconnect
  | markDisconnected
  deriving Repr, DecidableEq

/-- Result of `Disconnect`; `panicked` models the Go runtime panic raised by
`close` of an already-closed channel. -/
inductive DOutcome where
  | ok
  | fail (e : Err)
  | panicked (msg : String)
  deriving Repr, DecidableEq

/-- `Disconnect` (client.go lines 140-162): a no-op success when not
connected; otherwise `close(stopChan)` (panics if already closed), then
`wg.Wait()` (all dispatch tasks exit, the counter reaches zero), then the
transport disconnect — returning its error without clearing `isConnected` if
it fails — and finally `isConnected = false`. -/
def Disconnect (tr : Transport) (s : ClientState) :
    DOutcome × ClientState × List DEvent :=
  if IsConnected s then
    if s.stopClosed then (.panicked "close of closed channel", s, [])
    else
      let s1 := { s with stopClosed := true, tasks := 0 }
      match tr.disconnectError with
      | some e => (.fail (.transport e), s1,
                   [.closeStopChan, .waitTasks, .transportDisconnect])
      | none => (.ok, { s1 with isConnected := false },
                 [.closeStopChan, .waitTasks, .transportDisconnect,
                  .markDisconnected])
  else (.ok, s, [])

/-- The handler type `MessageHandler func(topic string, message
types.MessageEnvelope) error`. -/
def MessageHandler : Type := String → MessageEnvelope → Except String Unit

/-- Observable behaviour of one dispatch task over the messages its channel
delivered: the handler invocations it made (topic argument and envelope, in
order), the handler errors it logged, and what it pushed onto the shared
error channel. -/
structure DispatchLog where
  invocations : List (String × MessageEnvelope)
  loggedErrors : List String
  errorChanPushes : List String
  deriving Repr, DecidableEq

/-- The message-processing loop of `handleMessages` in client.go (lines
298-330), run over the finite list of messages delivered on the topic's
channel before it closed or the stop signal fired: each message is passed to
the handler with the subscribed `topic` as the topic argument; a handler
error is logged and the loop continues; nothing is ever pushed onto the
shared error channel. -/
def handleMessages (topic : String) (handler : MessageHandler) :
    List MessageEnvelope → DispatchLog
  | [] => { invocations := [], loggedErrors := [], errorChanPushes := [] }
  | m :: rest =>
    let logged := match handler topic m with
      | .ok _ => []
      | .error e => [e]
    let tail := handleMessages topic handler rest
    { invocations := (topic, m) :: tail.invocations,
      loggedErrors := logged ++ tail.loggedErrors,
      errorChanPushes := tail.errorChanPushes }

/-- The message-processing loop of `handleMessages` in the simplified client
(src/unnamed/part_004, lines 144-165): the topic argument is
`msg.ReceivedTopic` when non-empty, else the subscribed pattern; the handler's
error is discarded (`_ = handler(actualTopic, msg)`). -/
def handleMessagesSimplified (topic : String) (handler : MessageHandler) :
    List MessageEnvelope → DispatchLog
  | [] => { invocations := [], loggedErrors := [], errorChanPushes := [] }
  | m :: rest =>
    let actualTopic := if m.receivedTopic = "" then topic else m.receivedTopic
    let tail := handleMessagesSimplified topic handler rest
    { invocations := (actualTopic, m) :: tail.invocations,
      loggedErrors := tail.loggedErrors,
      errorChanPushes := tail.errorChanPushes }

/-! Concrete fixtures used by counterexamples and witnesses. -/

/-- A transport on which every operation succeeds. -/
def okTransport : Transport :=
  { subscribeError := fun _ => none
    publishError := fun _ _ => none
    unsubscribeError := fun _ => none
    requestResult := .error "no responder"
    disconnectError := none }

/-- A transport whose batched subscribe registration is rejected. -/
def rejectSubscribeTransport : Transport :=
  { okTransport with subscribeError := fun _ => some "malformed wildcard" }

/-- A transport whose disconnect fails. -/
def failingDisconnectTransport : Transport :=
  { okTransport with disconnectError := some "network down" }

/-- A freshly created client (`NewClient`) after a successful `Connect`. -/
def connectedState : ClientState :=
  { isConnected := true, subscriptions := [], stopClosed := false,
    tasks := 0, nextChan := 0 }

/-- A freshly created client (`NewClient`) that was never connected. -/
def freshState : ClientState :=
  { isConnected := false, subscriptions := [], stopClosed := false,
    tasks := 0, nextChan := 0 }

/-- A wildcard-matched message as delivered by the provider: subscribed
pattern `edgex/events/#`, actual topic `edgex/events/device/sensor01`. -/
def sensorMsg : MessageEnvelope :=
  { correlationID := "cid-1", payload := [], contentType := "application/json",
    receivedTopic := "edgex/events/device/sensor01" }

/-! Helper lemmas about the subscriptions map. -/

theorem getSub_filter_ne (subs : List (String × Nat)) (t u : String)
    (h : t ≠ u) :
    getSub (subs.filter (fun p => p.1 != t)) u = getSub subs u := by
  induction subs with
  | nil => rfl
  | cons p rest ih =>
    by_cases hpt : p.1 = t
    · have hpu : ¬ p.1 = u := fun hh => h (hpt.symm.trans hh)
      simp [List.filter, hpt, getSub, hpu, h, ih]
    · simp only [List.filter_cons]
      have : (p.1 != t) = true := by simp [hpt]
      rw [this]
      simp only [getSub]
      by_cases hpu : p.1 = u
      · simp [hpu]
      · simp [hpu, ih]

theorem getSub_setSub (subs : List (String × Nat)) (t u : String) (ch : Nat) :
    getSub (setSub subs t ch) u = if t = u then some ch else getSub subs u := by
  by_cases h : t = u
  · subst h; simp [setSub, getSub]
  · simp [setSub, getSub, h, getSub_filter_ne subs t u h]

theorem registerChannels_cons (s : ClientState) (a : String)
    (rest : List String) :
    registerChannels s (a :: rest) =
      registerChannels
        { s with subscriptions := setSub s.subscriptions a s.nextChan,
                 nextChan := s.nextChan + 1 } rest := rfl

theorem registerChannels_tasks (topics : List String) (s : ClientState) :
    (registerChannels s topics).tasks = s.tasks := by
  induction topics generalizing s with
  | nil => rfl
  | cons a rest ih => rw [registerChannels_cons]; exact ih _

theorem registerChannels_preserves (topics : List String) (s : ClientState)
    (t : String) (h : (getSub s.subscriptions t).isSome) :
    (getSub (registerChannels s topics).subscriptions t).isSome := by
  induction topics generalizing s with
  | nil => exact h
  | cons a rest ih =>
    rw [registerChannels_cons]
    apply ih
    show (getSub (setSub s.subscriptions a s.nextChan) t).isSome
    rw [getSub_setSub]
    by_cases hat : a = t
    · simp [hat]
    · simpa [hat] using h

theorem registerChannels_mem (topics : List String) (s : ClientState)
    (t : String) (h : t ∈ topics) :
    (getSub (registerChannels s topics).subscriptions t).isSome := by
  induction topics generalizing s with
  | nil => cases h
  | cons a rest ih =>
    rw [registerChannels_cons]
    rcases List.mem_cons.mp h with rfl | hm
    · apply registerChannels_preserves
      show (getSub (setSub s.subscriptions t s.nextChan) t).isSome
      rw [getSub_setSub]
      simp
    · exact ih _ hm

/-! Claim theorems. -/

/-- C1: the claim says a dispatched message with a non-empty
actual-received-topic field reaches the handler with that actual topic.  The
dispatch loop of client.go (`handleMessages`) invokes the handler with the
subscribed pattern `edgex/events/#` even though the delivered message carries
the non-empty actual topic `edgex/events/device/sensor01`; the simplified
client of src/unnamed/part_004 (`handleMessagesSimplified`) — and the
repository's own CHANGELOG, doc.go and wildcard example — give the handler
the actual topic at the same input. -/
theorem handleMessages_ignores_receivedTopic :
    (handleMessages "edgex/events/#" (fun _ _ => .ok ())
        [sensorMsg]).invocations = [("edgex/events/#", sensorMsg)] ∧
    (handleMessagesSimplified "edgex/events/#" (fun _ _ => .ok ())
        [sensorMsg]).invocations
      = [("edgex/events/device/sensor01", sensorMsg)] ∧
    sensorMsg.receivedTopic = "edgex/events/device/sensor01" ∧
    ("edgex/events/#" : String) ≠ "edgex/events/device/sensor01" := by
  refine ⟨rfl, ?_, rfl, by decide⟩
  simp [handleMessagesSimplified, sensorMsg]

/-- C5: every mutating operation (`Publish`, `Subscribe`, `Unsubscribe`,
`Request`, and also `PublishWithCorrelationID`) on a disconnected client
fails with the NotConnected error, makes no transport call, and — for
`Subscribe` and `Unsubscribe` — leaves the client state (in particular the
registration map) unchanged, creating no delivery channel. -/
theorem notConnected_guard (tr : Transport) (s : ClientState)
    (h : IsConnected s = false) :
    (∀ topic d u, Publish tr s topic d u = (.error .notConnected, [])) ∧
    (∀ topics, Subscribe tr s topics = (.error .notConnected, s, [])) ∧
    (∀ topics, Unsubscribe tr s topics = (.error .notConnected, s, [])) ∧
    (∀ env rt pt, Request tr s env rt pt = (.error .notConnected, [])) ∧
    (∀ topic d cid, PublishWithCorrelationID tr s topic d cid
        = (.error .notConnected, [])) := by
  refine ⟨?_, ?_, ?_, ?_, ?_⟩ <;> intros <;>
    simp [Publish, Subscribe, Unsubscribe, Request,
          PublishWithCorrelationID, h]

/-- Witness for C5 at a never-connected client. -/
theorem notConnected_guard_witness :
    IsConnected freshState = false ∧
    Subscribe okTransport freshState ["a/b"]
      = (.error .notConnected, freshState, []) ∧
    Publish okTransport freshState "t" (.bytes [1]) "u"
      = (.error .notConnected, []) :=
  ⟨rfl, (notConnected_guard okTransport freshState rfl).2.1 ["a/b"],
   (notConnected_guard okTransport freshState rfl).1 "t" (.bytes [1]) "u"⟩

/-- C6: the dispatch loop of client.go delivers every message on the channel
to the handler in order regardless of handler errors (so message N+1 is
delivered even when the handler failed on message N), pushes nothing onto the
shared error channel, and logs exactly the errors the handler returned. -/
theorem handler_error_does_not_stop_dispatch (topic : String)
    (handler : MessageHandler) (msgs : List MessageEnvelope) :
    (handleMessages topic handler msgs).invocations
        = msgs.map (fun m => (topic, m)) ∧
    (handleMessages topic handler msgs).errorChanPushes = [] ∧
    (handleMessages topic handler msgs).loggedErrors
        = msgs.filterMap (fun m =>
            match handler topic m with
            | .ok _ => none
            | .error e => some e) := by
  induction msgs with
  | nil => exact ⟨rfl, rfl, rfl⟩
  | cons m rest ih =>
    obtain ⟨ih1, ih2, ih3⟩ := ih
    refine ⟨by simp [handleMessages, ih1], by simp [handleMessages, ih2], ?_⟩
    cases hh : handler topic m with
    | ok v => simp [handleMessages, hh, ih3, List.filterMap_cons]
    | error e => simp [handleMessages, hh, ih3, List.filterMap_cons]

/-- Counterexample to C2: on a connected client with no subscriptions, a
`Subscribe` for pattern `a/b` that the transport rejects returns an error —
but the registration map is NOT as it was before the call: the freshly
created channel for `a/b` stays registered, and `GetSubscribedTopics` grows
from `[]` to `["a/b"]`. -/
theorem subscribe_reject_changes_map :
    (Subscribe rejectSubscribeTransport connectedState ["a/b"]).1
      = .error (.transport "malformed wildcard") ∧
    GetSubscribedTopics
        (Subscribe rejectSubscribeTransport connectedState ["a/b"]).2.1
      = ["a/b"] ∧
    GetSubscribedTopics connectedState = [] ∧
    GetSubscribedTopics
        (Subscribe rejectSubscribeTransport connectedState ["a/b"]).2.1
      ≠ GetSubscribedTopics connectedState :=
  ⟨rfl, rfl, rfl, by decide⟩

/-- C2 as amended: when the transport rejects the batched registration on a
connected client, `Subscribe` returns a transport error and no dispatch task
is started (the task counter is unchanged), but the delivery channels created
during the call are not discarded: every requested pattern remains registered
in the pattern-to-channel map, while patterns that were not requested keep
their previous registration. -/
theorem subscribe_reject_no_tasks_channels_remain (tr : Transport)
    (s : ClientState) (topics : List String) (e : String)
    (hc : IsConnected s = true) (hrej : tr.subscribeError topics = some e) :
    (Subscribe tr s topics).1 = .error (.transport e) ∧
    (Subscribe tr s topics).2.1.tasks = s.tasks ∧
    (Subscribe tr s topics).2.2 = [.subscribe topics] ∧
    (∀ t ∈ topics,
      (getSub (Subscribe tr s topics).2.1.subscriptions t).isSome) := by
  have hsub : Subscribe tr s topics
      = (.error (.transport e), registerChannels s topics,
         [.subscribe topics]) := by
    simp [Subscribe, hc, hrej]
  refine ⟨by rw [hsub], ?_, by rw [hsub], ?_⟩
  · rw [hsub]; exact registerChannels_tasks topics s
  · intro t ht
    rw [hsub]
    exact registerChannels_mem topics s t ht

/-- Witness for the amended C2. -/
theorem subscribe_reject_no_tasks_channels_remain_witness :
    IsConnected connectedState = true ∧
    rejectSubscribeTransport.subscribeError ["a/b"]
      = some "malformed wildcard" ∧
    ((Subscribe rejectSubscribeTransport connectedState ["a/b"]).1
        = .error (.transport "malformed wildcard") ∧
      (Subscribe rejectSubscribeTransport connectedState ["a/b"]).2.1.tasks
        = connectedState.tasks ∧
      (Subscribe rejectSubscribeTransport connectedState ["a/b"]).2.2
        = [.subscribe ["a/b"]] ∧
      (∀ t ∈ ["a/b"],
        (getSub (Subscribe rejectSubscribeTransport connectedState
          ["a/b"]).2.1.subscriptions t).isSome)) :=
  ⟨rfl, rfl,
   subscribe_reject_no_tasks_channels_remain rejectSubscribeTransport
     connectedState ["a/b"] "malformed wildcard" rfl rfl⟩

/-- In any trace `Disconnect` can emit, a transport-disconnect step is
preceded by the join on the dispatch tasks, which is itself preceded by the
shutdown broadcast. -/
theorem trace_index_aux (l : List DEvent)
    (hl : l = [.closeStopChan, .waitTasks, .transportDisconnect] ∨
          l = [.closeStopChan, .waitTasks, .transportDisconnect,
               .markDisconnected])
    (i : Nat) (hi : l.get? i = some .transportDisconnect) :
    ∃ j, j < i ∧ l.get? j = some .waitTasks ∧
      ∃ k, k < j ∧ l.get? k = some .closeStopChan := by
  rcases hl with rfl | rfl <;>
    rcases i with _ | _ | _ | _ | i <;>
      first
        | exact ⟨1, by omega, rfl, 0, by omega, rfl⟩
        | simp at hi

/-- C3: on a connected client, `Disconnect` broadcasts the close-once
shutdown signal first, then joins on all dispatch tasks, only then calls the
transport's disconnect, and (when the transport succeeds) finally marks the
client disconnected; in every trace the transport disconnect comes after the
join, which comes after the broadcast. -/
theorem disconnect_ordering (tr : Transport) (s : ClientState)
    (hc : IsConnected s = true) (hstop : s.stopClosed = false) :
    (tr.disconnectError = none →
      (Disconnect tr s).2.2
        = [.closeStopChan, .waitTasks, .transportDisconnect,
           .markDisconnected] ∧
      IsConnected (Disconnect tr s).2.1 = false) ∧
    (∀ i, (Disconnect tr s).2.2.get? i = some .transportDisconnect →
      ∃ j, j < i ∧ (Disconnect tr s).2.2.get? j = some .waitTasks ∧
        ∃ k, k < j ∧ (Disconnect tr s).2.2.get? k = some .closeStopChan) := by
  have hc' : s.isConnected = true := hc
  constructor
  · intro hok
    simp [Disconnect, IsConnected, hc', hstop, hok]
  · intro i hi
    apply trace_index_aux (Disconnect tr s).2.2 _ i hi
    cases he : tr.disconnectError with
    | some e => left; simp [Disconnect, IsConnected, hc', hstop, he]
    | none => right; simp [Disconnect, IsConnected, hc', hstop, he]

/-- Witness for C3 on a connected client with an all-success transport. -/
theorem disconnect_ordering_witness :
    IsConnected connectedState = true ∧ connectedState.stopClosed = false ∧
    ((okTransport.disconnectError = none →
      (Disconnect okTransport connectedState).2.2
        = [.closeStopChan, .waitTasks, .transportDisconnect,
           .markDisconnected] ∧
      IsConnected (Disconnect okTransport connectedState).2.1 = false) ∧
    (∀ i, (Disconnect okTransport connectedState).2.2.get? i
        = some .transportDisconnect →
      ∃ j, j < i ∧ (Disconnect okTransport connectedState).2.2.get? j
          = some .waitTasks ∧
        ∃ k, k < j ∧ (Disconnect okTransport connectedState).2.2.get? k
            = some .closeStopChan)) :=
  ⟨rfl, rfl, disconnect_ordering okTransport connectedState rfl rfl⟩

/-- Counterexample to C4: the claim quantifies over every client, but on a
connected client whose transport disconnect fails, the first `Disconnect`
does not return success. -/
theorem double_disconnect_fails_counterexample :
    (Disconnect failingDisconnectTransport connectedState).1
      = .fail (.transport "network down") ∧
    (Disconnect failingDisconnectTransport connectedState).1 ≠ .ok :=
  ⟨rfl, by decide⟩

/-- C4 as amended: for every client whose transport disconnect succeeds
(and that is not in the broken connected-with-closed-stop-signal state a
failed disconnect leaves behind), `Disconnect` twice succeeds both times and
the transport's disconnect is invoked at most once across the two calls; on
an already-disconnected or never-connected client `Disconnect` is a no-op
success that makes no transport call. -/
theorem double_disconnect_idempotent (tr : Transport) (s : ClientState)
    (hok : tr.disconnectError = none)
    (hns : s.isConnected = true → s.stopClosed = false) :
    (Disconnect tr s).1 = .ok ∧
    (Disconnect tr (Disconnect tr s).2.1).1 = .ok ∧
    ((Disconnect tr s).2.2
        ++ (Disconnect tr (Disconnect tr s).2.1).2.2).count
      .transportDisconnect ≤ 1 ∧
    (s.isConnected = false → Disconnect tr s = (.ok, s, [])) := by
  have hd : ∀ s' : ClientState, s'.isConnected = false →
      Disconnect tr s' = (.ok, s', []) := by
    intro s' h
    simp [Disconnect, IsConnected, h]
  by_cases hc : s.isConnected = true
  · have hstop := hns hc
    have h1r : (Disconnect tr s).1 = .ok := by
      simp [Disconnect, IsConnected, hc, hstop, hok]
    have h1f : (Disconnect tr s).2.1.isConnected = false := by
      simp [Disconnect, IsConnected, hc, hstop, hok]
    have h1t : (Disconnect tr s).2.2
        = [.closeStopChan, .waitTasks, .transportDisconnect,
           .markDisconnected] := by
      simp [Disconnect, IsConnected, hc, hstop, hok]
    have h2 := hd _ h1f
    have hcount : (Disconnect tr s).2.2
        ++ (Disconnect tr (Disconnect tr s).2.1).2.2
        = [.closeStopChan, .waitTasks, .transportDisconnect,
           .markDisconnected] := by
      rw [h2, h1t]; simp
    refine ⟨h1r, by rw [h2], ?_, fun hf => absurd hc (by simp [hf])⟩
    rw [hcount]
    decide
  · have hcf : s.isConnected = false := by
      cases hcv : s.isConnected
      · rfl
      · exact absurd hcv hc
    have h1 := hd s hcf
    have e21 : (Disconnect tr s).2.1 = s := by rw [h1]
    refine ⟨by rw [h1], by rw [e21, h1], ?_, fun _ => h1⟩
    rw [e21, h1]
    simp

/-- Witness for the amended C4. -/
theorem double_disconnect_idempotent_witness :
    okTransport.disconnectError = none ∧
    ((Disconnect okTransport connectedState).1 = .ok ∧
     (Disconnect okTransport
        (Disconnect okTransport connectedState).2.1).1 = .ok ∧
     ((Disconnect okTransport connectedState).2.2
        ++ (Disconnect okTransport
              (Disconnect okTransport connectedState).2.1).2.2).count
        .transportDisconnect ≤ 1 ∧
     (connectedState.isConnected = false →
        Disconnect okTransport connectedState = (.ok, connectedState, []))) :=
  ⟨rfl, double_disconnect_idempotent okTransport connectedState rfl
    (fun _ => rfl)⟩

/-- C9: when the transport's disconnect fails on a connected client,
`Disconnect` returns that error and the client still reports connected, even
though the shutdown signal has been broadcast (the stop channel is closed)
and every dispatch task has exited (the task counter is zero) — the
connected flag and the shutdown state disagree. -/
theorem disconnect_failure_stays_connected (tr : Transport) (s : ClientState)
    (e : String) (hc : IsConnected s = true) (hstop : s.stopClosed = false)
    (he : tr.disconnectError = some e) :
    (Disconnect tr s).1 = .fail (.transport e) ∧
    IsConnected (Disconnect tr s).2.1 = true ∧
    (Disconnect tr s).2.1.stopClosed = true ∧
    (Disconnect tr s).2.1.tasks = 0 ∧
    (Disconnect tr s).2.2
      = [.closeStopChan, .waitTasks, .transportDisconnect] := by
  have hc' : s.isConnected = true := hc
  simp [Disconnect, IsConnected, hc', hstop, he]

/-- Witness for C9. -/
theorem disconnect_failure_stays_connected_witness :
    IsConnected connectedState = true ∧
    connectedState.stopClosed = false ∧
    failingDisconnectTransport.disconnectError = some "network down" ∧
    ((Disconnect failingDisconnectTransport connectedState).1
        = .fail (.transport "network down") ∧
     IsConnected (Disconnect failingDisconnectTransport
        connectedState).2.1 = true ∧
     (Disconnect failingDisconnectTransport connectedState).2.1.stopClosed
        = true ∧
     (Disconnect failingDisconnectTransport connectedState).2.1.tasks = 0 ∧
     (Disconnect failingDisconnectTransport connectedState).2.2
        = [.closeStopChan, .waitTasks, .transportDisconnect]) :=
  ⟨rfl, rfl, rfl,
   disconnect_failure_stays_connected failingDisconnectTransport
     connectedState "network down" rfl rfl rfl⟩

theorem append_data (s t : String) : (s ++ t).data = s.data ++ t.data := by
  cases s; cases t; rfl

theorem prefixed_ne_empty (u : String) : "MessageBus-" ++ u ≠ "" := by
  intro h
  have hd := congrArg String.data h
  rw [append_data] at hd
  have hnil : (String.data "") = [] := rfl
  have h2 := (List.append_eq_nil.mp (hd.trans hnil)).1
  exact absurd h2 (by decide)

theorem prefixed_inj (u v : String)
    (h : "MessageBus-" ++ u = "MessageBus-" ++ v) : u = v := by
  have hd := congrArg String.data h
  rw [append_data, append_data] at hd
  have h2 := List.append_cancel_left hd
  cases u; cases v
  exact congrArg String.mk h2

/-- C7: a successful `CreateMessageEnvelope` call with a non-empty
caller-supplied correlation id returns exactly that id; with an empty id it
returns `"MessageBus-" ++ uuid` for the freshly drawn uuid — a non-empty
string, and distinct envelopes for distinct uuid draws. -/
theorem createEnvelope_correlation (d1 d2 : GoValue) (u1 u2 : String)
    (env1 env2 : MessageEnvelope)
    (h1 : CreateMessageEnvelope d1 "" u1 = .ok env1)
    (h2 : CreateMessageEnvelope d2 "" u2 = .ok env2)
    (hu : u1 ≠ u2) :
    env1.correlationID = "MessageBus-" ++ u1 ∧
    env1.correlationID ≠ "" ∧
    env1.correlationID ≠ env2.correlationID ∧
    (∀ d cid u env, cid ≠ "" →
      CreateMessageEnvelope d cid u = .ok env → env.correlationID = cid) := by
  have key : ∀ d u env, CreateMessageEnvelope d "" u = .ok env →
      env.correlationID = "MessageBus-" ++ u := by
    intro d u env h
    cases hp : toPayloadBytes d with
    | error e => rw [CreateMessageEnvelope, hp] at h; cases h
    | ok payload =>
      rw [CreateMessageEnvelope, hp] at h
      simp only [if_pos, Except.ok.injEq, reduceIte] at h
      rw [← h]
  refine ⟨key d1 u1 env1 h1, ?_, ?_, ?_⟩
  · rw [key d1 u1 env1 h1]
    exact prefixed_ne_empty u1
  · rw [key d1 u1 env1 h1, key d2 u2 env2 h2]
    intro heq
    exact hu (prefixed_inj u1 u2 heq)
  · intro d cid u env hcid h
    cases hp : toPayloadBytes d with
    | error e => rw [CreateMessageEnvelope, hp] at h; cases h
    | ok payload =>
      rw [CreateMessageEnvelope, hp] at h
      simp only [hcid, ite_false, if_neg, Except.ok.injEq] at h
      rw [← h]

/-- Witness for C7. -/
theorem createEnvelope_correlation_witness :
    CreateMessageEnvelope (.bytes []) "" "u-a"
      = .ok { correlationID := "MessageBus-" ++ "u-a", payload := [],
              contentType := "application/json", receivedTopic := "" } ∧
    CreateMessageEnvelope (.bytes []) "" "u-b"
      = .ok { correlationID := "MessageBus-" ++ "u-b", payload := [],
              contentType := "application/json", receivedTopic := "" } ∧
    ("u-a" : String) ≠ "u-b" ∧
    (({ correlationID := "MessageBus-" ++ "u-a", payload := [],
        contentType := "application/json",
        receivedTopic := "" } : MessageEnvelope).correlationID
          = "MessageBus-" ++ "u-a" ∧
     ({ correlationID := "MessageBus-" ++ "u-a", payload := [],
        contentType := "application/json",
        receivedTopic := "" } : MessageEnvelope).correlationID ≠ "" ∧
     ({ correlationID := "MessageBus-" ++ "u-a", payload := [],
        contentType := "application/json",
        receivedTopic := "" } : MessageEnvelope).correlationID
        ≠ ({ correlationID := "MessageBus-" ++ "u-b", payload := [],
             contentType := "application/json",
             receivedTopic := "" } : MessageEnvelope).correlationID ∧
     (∀ d cid u env, cid ≠ "" →
        CreateMessageEnvelope d cid u = .ok env →
          env.correlationID = cid)) :=
  ⟨rfl, rfl, by decide,
   createEnvelope_correlation (.bytes []) (.bytes []) "u-a" "u-b" _ _
     rfl rfl (by decide)⟩

/-- C8: the payload of a created envelope is the raw bytes unchanged for a
byte-sequence input, the UTF-8 bytes of the text for a string input, and the
JSON encoding for any other input, the call failing with a serialization
error exactly when the JSON encoding fails. -/
theorem createEnvelope_payload (cid u : String) :
    (∀ b env, CreateMessageEnvelope (.bytes b) cid u = .ok env →
        env.payload = b) ∧
    (∀ b, ∃ env, CreateMessageEnvelope (.bytes b) cid u = .ok env) ∧
    (∀ s env, CreateMessageEnvelope (.str s) cid u = .ok env →
        env.payload = utf8Bytes s) ∧
    (∀ s, ∃ env, CreateMessageEnvelope (.str s) cid u = .ok env) ∧
    (∀ v bs, jsonMarshal v = .ok bs →
        ∃ env, CreateMessageEnvelope (.other v) cid u = .ok env ∧
          env.payload = bs) ∧
    (∀ v e, jsonMarshal v = .error e →
        CreateMessageEnvelope (.other v) cid u
          = .error (.serialization e)) := by
  refine ⟨?_, ?_, ?_, ?_, ?_, ?_⟩
  · intro b env h
    simp only [CreateMessageEnvelope, toPayloadBytes, Except.ok.injEq] at h
    rw [← h]
  · intro b
    exact ⟨_, rfl⟩
  · intro s env h
    simp only [CreateMessageEnvelope, toPayloadBytes, Except.ok.injEq] at h
    rw [← h]
  · intro s
    exact ⟨_, rfl⟩
  · intro v bs h
    refine ⟨{ correlationID := if cid = "" then "MessageBus-" ++ u else cid,
              payload := bs, contentType := "application/json",
              receivedTopic := "" }, ?_, rfl⟩
    simp [CreateMessageEnvelope, toPayloadBytes, h]
  · intro v e h
    simp [CreateMessageEnvelope, toPayloadBytes, h]

/-- Witness for C8: a channel-like value is rejected with a serialization
error, and raw bytes round-trip unchanged. -/
theorem createEnvelope_payload_witness :
    jsonMarshal (.unsupported "chan")
      = .error ("json: unsupported type: " ++ "chan") ∧
    CreateMessageEnvelope (.other (.unsupported "chan")) "c" "u"
      = .error (.serialization ("json: unsupported type: " ++ "chan")) ∧
    CreateMessageEnvelope (.bytes [7, 8]) "c" "u"
      = .ok { correlationID := "c", payload := [7, 8],
              contentType := "application/json", receivedTopic := "" } ∧
    ({ correlationID := "c", payload := [7, 8],
       contentType := "application/json",
       receivedTopic := "" } : MessageEnvelope).payload = [7, 8] :=
  ⟨rfl,
   (createEnvelope_payload "c" "u").2.2.2.2.2 (.unsupported "chan") _ rfl,
   rfl,
   (createEnvelope_payload "c" "u").1 [7, 8] _ rfl⟩

/-- C10: whenever `PublishWithCorrelationID` reaches the transport, the
published envelope carries the caller-supplied correlation id verbatim — for
every id, the empty string included; no fresh identifier is ever
generated. -/
theorem publishWithCorrelationID_verbatim (tr : Transport) (s : ClientState)
    (topic : String) (d : GoValue) (cid : String) (payload : List Nat)
    (hc : IsConnected s = true) (hp : toPayloadBytes d = .ok payload) :
    (PublishWithCorrelationID tr s topic d cid).2
      = [.publish { correlationID := cid, payload := payload,
                    contentType := "application/json",
                    receivedTopic := "" } topic] := by
  have hc' : s.isConnected = true := hc
  simp only [PublishWithCorrelationID, IsConnected, hc', hp, reduceIte]
  split <;> rfl

/-- Witness for C10 at the empty correlation id. -/
theorem publishWithCorrelationID_verbatim_witness :
    IsConnected connectedState = true ∧
    toPayloadBytes (.bytes [1, 2]) = .ok [1, 2] ∧
    (PublishWithCorrelationID okTransport connectedState "edgex/events"
        (.bytes [1, 2]) "").2
      = [.publish { correlationID := "", payload := [1, 2],
                    contentType := "application/json",
                    receivedTopic := "" } "edgex/events"] :=
  ⟨rfl, rfl,
   publishWithCorrelationID_verbatim okTransport connectedState
     "edgex/events" (.bytes [1, 2]) "" [1, 2] rfl rfl⟩

end MessageBus
